import Mathlib

/-!
Shallow embedding of `src/BottomSheet.tsx` (a React Native bottom-sheet
component) and proofs about its visibility state machine and drag-to-dismiss
gesture logic.

Modelling conventions:
* JavaScript numbers that hold pixel heights, durations and drag deltas are
  modelled as rationals (`ℚ`).
* The component's mutable pieces — the `modalVisible` React state, the
  `animatedHeight` `Animated.Value`, the `pan` `Animated.ValueXY`, and the
  in-flight animations — form one record, `Sheet`.
* The animation engine (`Animated.timing` / `Animated.spring`) is the external
  collaborator: starting a run on a value records an in-flight animation for
  that value (superseding any previous run on the same value, whose completion
  then never fires), and a separate completion event sets the value to the
  run's target and executes the `.start` callback from the source.  The height
  value and the pan value are independent, so each gets its own slot.
* Invocations of the owner's `onClose` callback are counted in
  `onCloseCount`.
* Gesture samples reach the handlers only while the `Animated.View` is
  mounted (the `Modal` renders its children only while `modalVisible` is
  true) and the responder has claimed the gesture
  (`onStartShouldSetPanResponder: () => closeOnDragDown`); the dispatch
  wrappers `dragMove` / `dragRelease` encode exactly that gating.
-/

set_option linter.unusedVariables false

namespace RNBottomSheet

/-- The `animationType` prop forwarded to the `Modal`: `'none' | 'slide' | 'fade'`. -/
inductive AnimationType where
  | none
  | slide
  | fade
deriving DecidableEq, Repr

/-- The configuration of one sheet instance after default resolution:
the destructured props of the `BottomSheet` component (style and children
props are presentation-only and not modelled). -/
structure Config where
  animationType : AnimationType
  height : ℚ
  minClosingHeight : ℚ
  duration : ℚ
  closeOnDragDown : Bool
  closeOnPressMask : Bool
  closeOnPressBack : Bool
deriving DecidableEq, Repr

/-- The optional props accepted by `BottomSheet` (those that affect
behaviour), each `none` when the owner omits it. -/
structure Props where
  animationType : Option AnimationType := none
  height : Option ℚ := none
  minClosingHeight : Option ℚ := none
  duration : Option ℚ := none
  closeOnDragDown : Option Bool := none
  closeOnPressMask : Option Bool := none
  closeOnPressBack : Option Bool := none
deriving DecidableEq, Repr

/-- Default resolution, from the destructuring defaults of the component:
`animationType = 'none'`, `height = 260`, `minClosingHeight = 0`,
`duration = 300`, `closeOnDragDown = false`, `closeOnPressMask = true`,
`closeOnPressBack = true`. -/
def resolveConfig (p : Props) : Config where
  animationType := p.animationType.getD AnimationType.none
  height := p.height.getD 260
  minClosingHeight := p.minClosingHeight.getD 0
  duration := p.duration.getD 300
  closeOnDragDown := p.closeOnDragDown.getD false
  closeOnPressMask := p.closeOnPressMask.getD true
  closeOnPressBack := p.closeOnPressBack.getD true

/-- Target of an in-flight `Animated.timing` run on `animatedHeight`:
`opening` runs toward `height`, `closing` toward `minClosingHeight`. -/
inductive HeightAnimTarget where
  | opening
  | closing
deriving DecidableEq, Repr

/-- The mutable state of one sheet instance. -/
structure Sheet where
  /-- The `modalVisible` React state: the `Modal` is mounted iff this holds. -/
  modalVisible : Bool
  /-- Current value of the `animatedHeight` `Animated.Value`. -/
  animatedHeight : ℚ
  /-- Current value of the `pan` `Animated.ValueXY`, as `(x, y)`. -/
  pan : ℚ × ℚ
  /-- The in-flight `Animated.timing` run on `animatedHeight`, if any. -/
  heightAnim : Option HeightAnimTarget
  /-- Whether an `Animated.spring` run toward `(0, 0)` is in flight on `pan`. -/
  panSpringActive : Bool
  /-- How many times the owner's `onClose` callback has been invoked. -/
  onCloseCount : Nat
deriving DecidableEq, Repr

/-- Lifecycle state as the spec names it: `open` while the panel is mounted
(the spec's `SheetState` flips to open when `setVisibility(true)` is invoked
and to closed when the close animation completes, which is exactly when
`modalVisible` flips in the source). -/
inductive SheetPhase where
  | opened
  | closed
deriving DecidableEq, Repr

/-- The spec's `SheetState`, derived from `modalVisible`. -/
def sheetPhase (s : Sheet) : SheetPhase :=
  if s.modalVisible then SheetPhase.opened else SheetPhase.closed

/-- The state of a freshly created instance: `modalVisible` starts `false`
(`useState(false)`), `animatedHeight` at `0` (`new Animated.Value(0)`),
`pan` at `(0, 0)` (`new Animated.ValueXY()`), no animation in flight, no
`onClose` invocation yet. -/
def initSheet : Sheet where
  modalVisible := false
  animatedHeight := 0
  pan := (0, 0)
  heightAnim := none
  panSpringActive := false
  onCloseCount := 0

/-- `setModalVisibility` from `useBottomSheetVisibility`: if `visible`, set
`modalVisible` to true and start `Animated.timing(animatedHeight, {toValue:
height, duration})`; otherwise start `Animated.timing(animatedHeight,
{toValue: minClosingHeight, duration})`.  Starting a timing run supersedes
any previous run on `animatedHeight`. -/
def setModalVisibility (cfg : Config) (visible : Bool) (s : Sheet) : Sheet :=
  if visible then
    { s with modalVisible := true, heightAnim := some HeightAnimTarget.opening }
  else
    { s with heightAnim := some HeightAnimTarget.closing }

/-- Completion of the in-flight `animatedHeight` timing run: the value
reaches the run's target and the `.start` callback executes.  Opening:
`animatedHeight.setValue(height)` (the pin).  Closing:
`setModalVisible(false); pan.setValue({x: 0, y: 0}); if (onClose) onClose();`.
No-op when no run is in flight. -/
def heightAnimFinish (cfg : Config) (s : Sheet) : Sheet :=
  match s.heightAnim with
  | none => s
  | some HeightAnimTarget.opening =>
      { s with animatedHeight := cfg.height, heightAnim := none }
  | some HeightAnimTarget.closing =>
      { s with
          animatedHeight := cfg.minClosingHeight,
          modalVisible := false,
          pan := (0, 0),
          onCloseCount := s.onCloseCount + 1,
          heightAnim := none }

/-- Completion of the in-flight `Animated.spring(pan, {toValue: {x: 0, y: 0}})`
run: `pan` reaches `(0, 0)`.  No-op when no spring is in flight. -/
def panSpringFinish (s : Sheet) : Sheet :=
  if s.panSpringActive then
    { s with pan := (0, 0), panSpringActive := false }
  else s

/-- `onPanResponderMove` from `usePanResponder`: for a sample with cumulative
vertical delta `dy`, if `dy > 0` then `Animated.event([null, {dy: pan.y}])`
writes `dy` into `pan.y` (leaving `pan.x` untouched); otherwise nothing. -/
def onPanResponderMove (dy : ℚ) (s : Sheet) : Sheet :=
  if 0 < dy then { s with pan := (s.pan.1, dy) } else s

/-- `onPanResponderRelease` from `usePanResponder`: if
`height / 4 - gestureState.dy < 0` then `setModalVisibility(false)`, else
start `Animated.spring(pan, {toValue: {x: 0, y: 0}})`. -/
def onPanResponderRelease (cfg : Config) (dy : ℚ) (s : Sheet) : Sheet :=
  if cfg.height / 4 - dy < 0 then
    setModalVisibility cfg false s
  else
    { s with panSpringActive := true }

/-- A gesture reaches the pan-responder handlers only when the responder
claims it (`onStartShouldSetPanResponder: () => closeOnDragDown`) and the
`Animated.View` carrying `panHandlers` is mounted, i.e. the `Modal` is
visible (`visible={modalVisible}`). -/
def gestureActive (cfg : Config) (s : Sheet) : Bool :=
  cfg.closeOnDragDown && s.modalVisible

/-- A drag sample delivered to the sheet: handled by `onPanResponderMove`
when the gesture is active, ignored otherwise. -/
def dragMove (cfg : Config) (dy : ℚ) (s : Sheet) : Sheet :=
  if gestureActive cfg s then onPanResponderMove dy s else s

/-- A gesture-end delivered to the sheet: handled by `onPanResponderRelease`
when the gesture is active, ignored otherwise. -/
def dragRelease (cfg : Config) (dy : ℚ) (s : Sheet) : Sheet :=
  if gestureActive cfg s then onPanResponderRelease cfg dy s else s

/-- The imperative handle's `close()`: `setModalVisibility(false)`. -/
def close (cfg : Config) (s : Sheet) : Sheet :=
  setModalVisibility cfg false s

/-- The imperative handle's `open()`: `setModalVisibility(true)`. -/
def openSheet (cfg : Config) (s : Sheet) : Sheet :=
  setModalVisibility cfg true s

/-- A press on the mask `TouchableOpacity`:
`onPress={() => (closeOnPressMask ? close() : null)}`. -/
def maskPress (cfg : Config) (s : Sheet) : Sheet :=
  if cfg.closeOnPressMask then close cfg s else s

/-- A platform back request delivered to the `Modal`:
`onRequestClose={() => { if (closeOnPressBack) close(); }}`. -/
def backRequest (cfg : Config) (s : Sheet) : Sheet :=
  if cfg.closeOnPressBack then close cfg s else s

/-- The events a sheet instance can receive. -/
inductive Event where
  | openEv
  | closeEv
  | maskPressEv
  | backRequestEv
  | dragMoveEv (dy : ℚ)
  | dragReleaseEv (dy : ℚ)
  | heightAnimFinishEv
  | panSpringFinishEv
deriving DecidableEq, Repr

/-- One step of the sheet's event loop (all events are serialized on the
single UI thread). -/
def step (cfg : Config) (e : Event) (s : Sheet) : Sheet :=
  match e with
  | Event.openEv => openSheet cfg s
  | Event.closeEv => close cfg s
  | Event.maskPressEv => maskPress cfg s
  | Event.backRequestEv => backRequest cfg s
  | Event.dragMoveEv dy => dragMove cfg dy s
  | Event.dragReleaseEv dy => dragRelease cfg dy s
  | Event.heightAnimFinishEv => heightAnimFinish cfg s
  | Event.panSpringFinishEv => panSpringFinish s

/-- The states a sheet instance can reach from creation. -/
inductive Reachable (cfg : Config) : Sheet → Prop where
  | init : Reachable cfg initSheet
  | next {s : Sheet} (e : Event) : Reachable cfg s → Reachable cfg (step cfg e s)

/-- The configuration obtained when the owner supplies no props. -/
def cfgDefault : Config :=
  resolveConfig {}

/-- A configuration with drag-to-dismiss enabled (all else defaulted). -/
def cfgDrag : Config :=
  { cfgDefault with closeOnDragDown := true }

/-- Helper invariant: in every reachable state, `pan.x` is `0` (nothing ever
writes a nonzero `x`) and `animatedHeight` is one of `0` (initial),
`minClosingHeight` (after a completed close) or `height` (after a completed
open). -/
theorem reachable_invariant (cfg : Config) (s : Sheet) (hr : Reachable cfg s) :
    s.pan.1 = 0 ∧
      (s.animatedHeight = 0 ∨ s.animatedHeight = cfg.minClosingHeight ∨
        s.animatedHeight = cfg.height) := by
  induction hr with
  | init => exact ⟨rfl, Or.inl rfl⟩
  | next e hr ih =>
    rename_i s
    obtain ⟨hx, hh⟩ := ih
    cases e with
    | openEv =>
      simpa [step, openSheet, setModalVisibility] using ⟨hx, hh⟩
    | closeEv =>
      simpa [step, close, setModalVisibility] using ⟨hx, hh⟩
    | maskPressEv =>
      simp only [step, maskPress]
      split
      · simpa [close, setModalVisibility] using ⟨hx, hh⟩
      · exact ⟨hx, hh⟩
    | backRequestEv =>
      simp only [step, backRequest]
      split
      · simpa [close, setModalVisibility] using ⟨hx, hh⟩
      · exact ⟨hx, hh⟩
    | dragMoveEv dy =>
      simp only [step, dragMove, onPanResponderMove]
      split
      · split
        · exact ⟨hx, hh⟩
        · exact ⟨hx, hh⟩
      · exact ⟨hx, hh⟩
    | dragReleaseEv dy =>
      simp only [step, dragRelease, onPanResponderRelease]
      split
      · split
        · simpa [setModalVisibility] using ⟨hx, hh⟩
        · exact ⟨hx, hh⟩
      · exact ⟨hx, hh⟩
    | heightAnimFinishEv =>
      cases hm : s.heightAnim with
      | none => simpa [step, heightAnimFinish, hm] using ⟨hx, hh⟩
      | some t =>
        cases t with
        | opening => simp [step, heightAnimFinish, hm, hx]
        | closing => simp [step, heightAnimFinish, hm]
    | panSpringFinishEv =>
      simp only [step, panSpringFinish]
      split
      · exact ⟨rfl, hh⟩
      · exact ⟨hx, hh⟩

/-- Claim C1.  With the gesture active (drag-to-dismiss enabled and the sheet
open), ending a gesture with cumulative delta `dy` commits to closing
exactly when `height / 4 - dy < 0`, i.e. `dy > height / 4`: the release
handler invokes `setModalVisibility(false)` and the close animation's
completion leaves the sheet in phase `closed`.  Otherwise it snaps back:
the sheet stays mounted in phase `opened` and a spring run is started on
`pan` whose completion resets `PanOffset` to `(0, 0)`. -/
theorem gesture_end_close_threshold (cfg : Config) (s : Sheet) (dy : ℚ)
    (hdrag : cfg.closeOnDragDown = true) (hvis : s.modalVisible = true) :
    (cfg.height / 4 - dy < 0 ↔ cfg.height / 4 < dy) ∧
      (cfg.height / 4 < dy →
        dragRelease cfg dy s = setModalVisibility cfg false s ∧
          sheetPhase (heightAnimFinish cfg (dragRelease cfg dy s)) =
            SheetPhase.closed) ∧
      (¬cfg.height / 4 < dy →
        sheetPhase (dragRelease cfg dy s) = SheetPhase.opened ∧
          (dragRelease cfg dy s).panSpringActive = true ∧
          (panSpringFinish (dragRelease cfg dy s)).pan = (0, 0) ∧
          sheetPhase (panSpringFinish (dragRelease cfg dy s)) =
            SheetPhase.opened) := by
  have hact : gestureActive cfg s = true := by
    simp [gestureActive, hdrag, hvis]
  refine ⟨sub_neg, ?_, ?_⟩
  · intro hgt
    have hcond : cfg.height / 4 - dy < 0 := sub_neg.mpr hgt
    constructor
    · simp [dragRelease, hact, onPanResponderRelease, hcond]
    · simp [dragRelease, hact, onPanResponderRelease, hcond,
        setModalVisibility, heightAnimFinish, sheetPhase]
  · intro hle
    have hcond : ¬cfg.height / 4 - dy < 0 := fun h => hle (sub_neg.mp h)
    refine ⟨?_, ?_, ?_, ?_⟩ <;>
      simp [dragRelease, hact, onPanResponderRelease, hcond, panSpringFinish,
        sheetPhase, hvis]

/-- Witness for C1 at `height = 260`, `dy = 100` (commit) and the snap-back
conjunct instantiated at the same state. -/
theorem gesture_end_close_threshold_witness :
    cfgDrag.closeOnDragDown = true ∧
      (openSheet cfgDrag initSheet).modalVisible = true ∧
      (cfgDrag.height / 4 < (100 : ℚ) →
        dragRelease cfgDrag 100 (openSheet cfgDrag initSheet) =
            setModalVisibility cfgDrag false (openSheet cfgDrag initSheet) ∧
          sheetPhase
              (heightAnimFinish cfgDrag
                (dragRelease cfgDrag 100 (openSheet cfgDrag initSheet))) =
            SheetPhase.closed) := by
  refine ⟨rfl, rfl, ?_⟩
  exact (gesture_end_close_threshold cfgDrag (openSheet cfgDrag initSheet) 100
    rfl rfl).2.1

/-- Claim C2.  Completion of a close animation (`setVisibility(false)` whose run
finishes): in the resulting state the panel is unmounted, `PanOffset` is
`(0, 0)`, the phase is `closed`, `AnimatedHeight` equals `minClosingHeight`,
and the owner's `onClose` has been invoked exactly once more, in the same
completion step (the callback runs after the unmount and the pan reset). -/
theorem close_completion_postconditions (cfg : Config) (s : Sheet)
    (h : s.heightAnim = some HeightAnimTarget.closing) :
    (heightAnimFinish cfg s).modalVisible = false ∧
      (heightAnimFinish cfg s).pan = (0, 0) ∧
      sheetPhase (heightAnimFinish cfg s) = SheetPhase.closed ∧
      (heightAnimFinish cfg s).animatedHeight = cfg.minClosingHeight ∧
      (heightAnimFinish cfg s).onCloseCount = s.onCloseCount + 1 := by
  simp [heightAnimFinish, h, sheetPhase]

/-- Witness for C2: the default sheet, opened and then closed. -/
theorem close_completion_postconditions_witness :
    (close cfgDefault (openSheet cfgDefault initSheet)).heightAnim =
        some HeightAnimTarget.closing ∧
      (heightAnimFinish cfgDefault
            (close cfgDefault (openSheet cfgDefault initSheet))).modalVisible =
          false ∧
        (heightAnimFinish cfgDefault
              (close cfgDefault (openSheet cfgDefault initSheet))).pan =
            (0, 0) ∧
          sheetPhase
              (heightAnimFinish cfgDefault
                (close cfgDefault (openSheet cfgDefault initSheet))) =
            SheetPhase.closed ∧
            (heightAnimFinish cfgDefault
                  (close cfgDefault
                    (openSheet cfgDefault initSheet))).animatedHeight =
              cfgDefault.minClosingHeight ∧
              (heightAnimFinish cfgDefault
                    (close cfgDefault
                      (openSheet cfgDefault initSheet))).onCloseCount =
                (close cfgDefault (openSheet cfgDefault initSheet)).onCloseCount +
                  1 :=
  ⟨rfl,
    close_completion_postconditions cfgDefault
      (close cfgDefault (openSheet cfgDefault initSheet)) rfl⟩

/-- Counterexample to claim C3: the freshly created sheet is `closed` at
rest with zero `onClose` invocations, yet calling `close()` there starts a
close animation whose completion invokes `onClose` — an observable effect,
because the completion callback runs `if (onClose) onClose()` unconditionally. -/
theorem close_when_closed_fires_onClose :
    sheetPhase initSheet = SheetPhase.closed ∧
      initSheet.onCloseCount = 0 ∧
      (heightAnimFinish cfgDefault (close cfgDefault initSheet)).onCloseCount = 1 :=
  ⟨rfl, rfl, rfl⟩

/-- Claim C3 as amended: calling `close()` when the sheet is already closed
at rest (unmounted, pan at `(0, 0)`, height at `minClosingHeight`, no
animation in flight) leaves every state component unchanged except that the
restarted close animation's completion invokes `onClose` once more — the
operation is idempotent on the state but not on the `onClose` effect. -/
theorem close_when_closed_only_repeats_onClose (cfg : Config) (s : Sheet)
    (hvis : s.modalVisible = false) (hpan : s.pan = (0, 0))
    (hh : s.animatedHeight = cfg.minClosingHeight)
    (ha : s.heightAnim = none) :
    heightAnimFinish cfg (close cfg s) =
      { s with onCloseCount := s.onCloseCount + 1 } := by
  cases s
  simp_all [close, setModalVisibility, heightAnimFinish]

/-- Witness for amended C3 at the freshly created default sheet. -/
theorem close_when_closed_only_repeats_onClose_witness :
    heightAnimFinish cfgDefault (close cfgDefault initSheet) =
      { initSheet with onCloseCount := initSheet.onCloseCount + 1 } :=
  close_when_closed_only_repeats_onClose cfgDefault initSheet rfl rfl rfl rfl

/-- Counterexample to claim C4: after one full open→close cycle the sheet
rests in phase `closed` with `onClose` fired once; a further `close()` and
its animation completion fire `onClose` a second time, while the sheet is
`closed` at rest and without any intervening open — so `onClose` is neither
limited to once per open→close cycle nor prevented while closed at rest. -/
theorem onClose_refires_while_closed_at_rest :
    sheetPhase
        (heightAnimFinish cfgDefault
          (close cfgDefault
            (heightAnimFinish cfgDefault (openSheet cfgDefault initSheet)))) =
      SheetPhase.closed ∧
      (heightAnimFinish cfgDefault
            (close cfgDefault
              (heightAnimFinish cfgDefault
                (openSheet cfgDefault initSheet)))).heightAnim =
        none ∧
      (heightAnimFinish cfgDefault
            (close cfgDefault
              (heightAnimFinish cfgDefault
                (openSheet cfgDefault initSheet)))).onCloseCount =
        1 ∧
      (heightAnimFinish cfgDefault
            (close cfgDefault
              (heightAnimFinish cfgDefault
                (close cfgDefault
                  (heightAnimFinish cfgDefault
                    (openSheet cfgDefault initSheet)))))).onCloseCount =
        2 :=
  ⟨rfl, rfl, rfl, rfl⟩

/-- Claim C4 as amended: `onCloseCount` increases exactly on completion of
a close animation — by one there, and no other event changes it.  In
particular a snap-back release (which only starts the pan spring) and the
spring's completion never invoke `onClose`; but every close animation fires
it, including one started by `close()` while already closed. -/
theorem onClose_only_on_close_animation_completion (cfg : Config) (e : Event)
    (s : Sheet) :
    (step cfg e s).onCloseCount =
      s.onCloseCount +
        (if e = Event.heightAnimFinishEv ∧
              s.heightAnim = some HeightAnimTarget.closing
          then 1 else 0) := by
  cases e with
  | openEv => simp [step, openSheet, setModalVisibility]
  | closeEv => simp [step, close, setModalVisibility]
  | maskPressEv =>
    simp only [step, maskPress, close, setModalVisibility]
    split <;> simp
  | backRequestEv =>
    simp only [step, backRequest, close, setModalVisibility]
    split <;> simp
  | dragMoveEv dy =>
    simp only [step, dragMove, onPanResponderMove]
    split
    · split <;> simp
    · simp
  | dragReleaseEv dy =>
    simp only [step, dragRelease, onPanResponderRelease, setModalVisibility]
    split
    · split <;> simp
    · simp
  | heightAnimFinishEv =>
    cases hm : s.heightAnim with
    | none => simp [step, heightAnimFinish, hm]
    | some t => cases t <;> simp [step, heightAnimFinish, hm]
  | panSpringFinishEv =>
    simp only [step, panSpringFinish]
    split <;> simp

/-- Claim C5.  In any reachable state with the gesture active, a drag sample
with cumulative delta `dy > 0` sets `PanOffset` to exactly `(0, dy)` — `y`
follows the finger 1:1 with no damping or clamping, `x` stays 0 — and a
sample with `dy ≤ 0` changes nothing at all. -/
theorem drag_sample_tracks_dy (cfg : Config) (s : Sheet) (dy : ℚ)
    (hr : Reachable cfg s) (hdrag : cfg.closeOnDragDown = true)
    (hvis : s.modalVisible = true) :
    (0 < dy → (dragMove cfg dy s).pan = (0, dy)) ∧
      (dy ≤ 0 → dragMove cfg dy s = s) := by
  have hx := (reachable_invariant cfg s hr).1
  have hact : gestureActive cfg s = true := by
    simp [gestureActive, hdrag, hvis]
  constructor
  · intro hdy
    simp [dragMove, hact, onPanResponderMove, hdy, hx]
  · intro hdy
    simp [dragMove, hact, onPanResponderMove, not_lt.mpr hdy]

/-- Witness for C5: the opened default-with-drag sheet, sample `dy = 5`. -/
theorem drag_sample_tracks_dy_witness :
    ((0 : ℚ) < 5 →
        (dragMove cfgDrag 5 (openSheet cfgDrag initSheet)).pan = (0, 5)) ∧
      ((5 : ℚ) ≤ 0 →
        dragMove cfgDrag 5 (openSheet cfgDrag initSheet) =
          openSheet cfgDrag initSheet) :=
  drag_sample_tracks_dy cfgDrag (openSheet cfgDrag initSheet) 5
    (Reachable.next Event.openEv Reachable.init) rfl rfl

/-- A configuration with a positive `minClosingHeight` (all else defaulted);
it satisfies the spec's configuration constraints `0 ≤ minClosingHeight <
height`. -/
def cfgMin : Config :=
  { cfgDefault with minClosingHeight := 1 }

/-- Counterexample to claim C6: with the valid configuration
`minClosingHeight = 1`, `height = 260`, the initial state — which is
reachable — has `AnimatedHeight = 0`, strictly below `minClosingHeight`. -/
theorem animatedHeight_starts_below_minClosingHeight :
    (0 : ℚ) ≤ cfgMin.minClosingHeight ∧
      cfgMin.minClosingHeight < cfgMin.height ∧
      Reachable cfgMin initSheet ∧
      initSheet.animatedHeight < cfgMin.minClosingHeight :=
  ⟨by norm_num [cfgMin, cfgDefault, resolveConfig],
    by norm_num [cfgMin, cfgDefault, resolveConfig],
    Reachable.init,
    by norm_num [cfgMin, cfgDefault, resolveConfig, initSheet]⟩

/-- Claim C6 as amended: under the configuration constraints
`0 ≤ minClosingHeight ≤ height`, every reachable state has
`0 ≤ AnimatedHeight ≤ height`; the lower bound `minClosingHeight` can fail
only at the fixed initial value `AnimatedHeight = 0` — in every reachable
state, `AnimatedHeight` is either `0` or at least `minClosingHeight`. -/
theorem animatedHeight_bounds (cfg : Config) (s : Sheet)
    (hr : Reachable cfg s) (h0 : 0 ≤ cfg.minClosingHeight)
    (hm : cfg.minClosingHeight ≤ cfg.height) :
    0 ≤ s.animatedHeight ∧ s.animatedHeight ≤ cfg.height ∧
      (s.animatedHeight = 0 ∨ cfg.minClosingHeight ≤ s.animatedHeight) := by
  obtain ⟨-, hh⟩ := reachable_invariant cfg s hr
  rcases hh with h | h | h <;> rw [h]
  · exact ⟨le_refl 0, le_trans h0 hm, Or.inl rfl⟩
  · exact ⟨h0, hm, Or.inr (le_refl _)⟩
  · exact ⟨le_trans h0 hm, le_refl _, Or.inr hm⟩

/-- Witness for amended C6: the default sheet after a completed open. -/
theorem animatedHeight_bounds_witness :
    0 ≤ (heightAnimFinish cfgDefault (openSheet cfgDefault initSheet)).animatedHeight ∧
      (heightAnimFinish cfgDefault (openSheet cfgDefault initSheet)).animatedHeight ≤
        cfgDefault.height ∧
      ((heightAnimFinish cfgDefault (openSheet cfgDefault initSheet)).animatedHeight = 0 ∨
        cfgDefault.minClosingHeight ≤
          (heightAnimFinish cfgDefault (openSheet cfgDefault initSheet)).animatedHeight) :=
  animatedHeight_bounds cfgDefault
    (heightAnimFinish cfgDefault (openSheet cfgDefault initSheet))
    (Reachable.next Event.heightAnimFinishEv (Reachable.next Event.openEv Reachable.init))
    (by norm_num [cfgDefault, resolveConfig])
    (by norm_num [cfgDefault, resolveConfig])

/-- Claim C7.  When drag-to-dismiss is disabled or the sheet is not mounted
(phase `closed`), drag samples and gesture ends are no-ops: the state —
including `PanOffset`, the phase and `AnimatedHeight` — is unchanged. -/
theorem inactive_gesture_noop (cfg : Config) (s : Sheet) (dy : ℚ)
    (h : cfg.closeOnDragDown = false ∨ s.modalVisible = false) :
    dragMove cfg dy s = s ∧ dragRelease cfg dy s = s := by
  have hact : gestureActive cfg s = false := by
    rcases h with h | h <;> simp [gestureActive, h]
  simp [dragMove, dragRelease, hact]

/-- Witness for C7: a drag sample on the unmounted fresh sheet (and with the
default configuration's `closeOnDragDown = false`). -/
theorem inactive_gesture_noop_witness :
    dragMove cfgDefault 7 initSheet = initSheet ∧
      dragRelease cfgDefault 7 initSheet = initSheet :=
  inactive_gesture_noop cfgDefault initSheet 7 (Or.inr rfl)

/-- Claim C8.  A mask press runs `close()` exactly when `closeOnPressMask`
is set and is a no-op otherwise; a platform back request runs `close()`
exactly when `closeOnPressBack` is set and is a no-op otherwise. -/
theorem mask_and_back_close_gating (cfg : Config) (s : Sheet) :
    (cfg.closeOnPressMask = true → maskPress cfg s = close cfg s) ∧
      (cfg.closeOnPressMask = false → maskPress cfg s = s) ∧
      (cfg.closeOnPressBack = true → backRequest cfg s = close cfg s) ∧
      (cfg.closeOnPressBack = false → backRequest cfg s = s) := by
  refine ⟨?_, ?_, ?_, ?_⟩ <;> intro h <;> simp [maskPress, backRequest, h]

/-- Witness for C8: the default configuration has both flags set, so both
events run `close()` on the fresh sheet. -/
theorem mask_and_back_close_gating_witness :
    maskPress cfgDefault initSheet = close cfgDefault initSheet ∧
      backRequest cfgDefault initSheet = close cfgDefault initSheet :=
  ⟨(mask_and_back_close_gating cfgDefault initSheet).1 rfl,
    (mask_and_back_close_gating cfgDefault initSheet).2.2.1 rfl⟩

/-- Claim C9.  `setVisibility(true)` mounts the panel (phase `opened`) at
invocation time, before the animation finishes — `AnimatedHeight` is still
whatever it was — and the open animation's completion pins `AnimatedHeight`
to exactly `height`; symmetrically, completion of a close animation leaves
`AnimatedHeight` at exactly `minClosingHeight`. -/
theorem open_mounts_then_pins_height (cfg : Config) (s t : Sheet)
    (ht : t.heightAnim = some HeightAnimTarget.closing) :
    ((setModalVisibility cfg true s).modalVisible = true ∧
        sheetPhase (setModalVisibility cfg true s) = SheetPhase.opened ∧
        (setModalVisibility cfg true s).animatedHeight = s.animatedHeight ∧
        (setModalVisibility cfg true s).heightAnim =
          some HeightAnimTarget.opening ∧
        (heightAnimFinish cfg (setModalVisibility cfg true s)).animatedHeight =
          cfg.height) ∧
      (heightAnimFinish cfg t).animatedHeight = cfg.minClosingHeight := by
  constructor
  · simp [setModalVisibility, heightAnimFinish, sheetPhase]
  · simp [heightAnimFinish, ht]

/-- Witness for C9: opening the fresh default sheet; for the close half, the
fresh sheet with a close animation just started by `close()`. -/
theorem open_mounts_then_pins_height_witness :
    ((setModalVisibility cfgDefault true initSheet).modalVisible = true ∧
        sheetPhase (setModalVisibility cfgDefault true initSheet) =
          SheetPhase.opened ∧
        (setModalVisibility cfgDefault true initSheet).animatedHeight =
          initSheet.animatedHeight ∧
        (setModalVisibility cfgDefault true initSheet).heightAnim =
          some HeightAnimTarget.opening ∧
        (heightAnimFinish cfgDefault
              (setModalVisibility cfgDefault true initSheet)).animatedHeight =
          cfgDefault.height) ∧
      (heightAnimFinish cfgDefault (close cfgDefault initSheet)).animatedHeight =
        cfgDefault.minClosingHeight :=
  open_mounts_then_pins_height cfgDefault initSheet
    (close cfgDefault initSheet) rfl

/-- Claim C10.  When the owner supplies no props, the resolved configuration
is `animationType = none`, `height = 260`, `minClosingHeight = 0`,
`duration = 300`, `closeOnDragDown = false`, `closeOnPressMask = true`,
`closeOnPressBack = true`; derived behaviour such as the close threshold is
computed from these values (`260 / 4 = 65`). -/
theorem default_props_resolution :
    resolveConfig {} =
      { animationType := AnimationType.none, height := 260,
        minClosingHeight := 0, duration := 300, closeOnDragDown := false,
        closeOnPressMask := true, closeOnPressBack := true } ∧
      (resolveConfig {}).height / 4 = 65 := by
  constructor
  · rfl
  · norm_num [resolveConfig]

end RNBottomSheet
